import Mathlib

/-!
Verification development for the geoson GeoJSON parser
(shallow embedding of src/src/parser.cpp).

JSON values are modelled by the inductive type Json; the C library's
json_value_s tree maps to it directly (a number node stores both its raw
text and the numeric value that std::stod would produce). C++ functions
that throw std::runtime_error are modelled in the Except String monad.
The external geodetic transform concord::WGS::toENU composed with the
extraction of Point fields is a black-box parameter t : WGS → Datum → Point.
std::unordered_map is modelled as an association list with overwriting
insertion (mapInsert); only its contents are observable.
-/

namespace geoson

/-- A parsed JSON tree, mirroring json_value_s of json.hpp: null, the two
boolean types, a number (raw text plus its numeric value), a string, an
array, and an object as an ordered field list. -/
inductive Json where
  | null
  | boolean (b : Bool)
  | num (lit : String) (val : Rat)
  | str (s : String)
  | arr (elems : List Json)
  | obj (fields : List (String × Json))

/-- concord::Datum, the document-level geodetic anchor. -/
structure Datum where
  lat : Rat
  lon : Rat
  alt : Rat
deriving DecidableEq

/-- concord::Point, a point in the local planar frame. -/
structure Point where
  x : Rat
  y : Rat
  z : Rat
deriving DecidableEq

/-- concord::WGS, a geodetic coordinate as built in parsePoint. -/
structure WGS where
  lat : Rat
  lon : Rat
  alt : Rat
deriving DecidableEq

/-- concord::Line, made of the two endpoints. -/
structure Line where
  p1 : Point
  p2 : Point
deriving DecidableEq

/-- concord::Polygon, an ordered ring of points. -/
structure Polygon where
  points : List Point
deriving DecidableEq

/-- concord::Euler; the parser only populates yaw. -/
structure Euler where
  roll : Rat
  pitch : Rat
  yaw : Rat
deriving DecidableEq

/-- geoson::CRS, the two coordinate-reference-system tags. CRS::WGS is the
Geodetic tag of the spec and CRS::ENU its LocalPlanar tag. -/
inductive CRS where
  | WGS
  | ENU
deriving DecidableEq

/-- geoson::Geometry, the variant over Point, Line, Path and Polygon. -/
inductive Geometry where
  | point (p : Point)
  | line (l : Line)
  | path (pts : List Point)
  | polygon (pg : Polygon)
deriving DecidableEq

/-- geoson::Feature: one geometry variant plus a string-to-string map. -/
structure Feature where
  geometry : Geometry
  properties : List (String × String)
deriving DecidableEq

/-- geoson::FeatureCollection, the returned model. -/
structure FeatureCollection where
  datum : Datum
  heading : Euler
  global_properties : List (String × String)
  features : List Feature
deriving DecidableEq

/-- find_element: first field of the object with the given name
(parser.cpp lines 29-38; parsed object members always carry a name). -/
def find_element (fields : List (String × Json)) (key : String) : Option Json :=
  match fields with
  | [] => none
  | (k, v) :: rest => if k = key then some v else find_element rest key

/-- get_string (lines 41-46): the content of a string node, else "". -/
def get_string : Json → String
  | .str s => s
  | _ => ""

/-- get_number (lines 49-54): the stod value of a number node, else 0.0. -/
def get_number : Json → Rat
  | .num _ v => v
  | _ => 0

/-- get_object (lines 57-61): the field list of an object node. -/
def get_object : Json → Option (List (String × Json))
  | .obj fields => some fields
  | _ => none

/-- get_array (lines 64-68): the element list of an array node. -/
def get_array : Json → Option (List Json)
  | .arr elems => some elems
  | _ => none

mutual
/-- serialize_value (lines 71-120): compact JSON text of a node; a number
prints its raw text, a string is quoted verbatim (no escaping). -/
def serialize_value : Json → String
  | .null => "null"
  | .boolean true => "true"
  | .boolean false => "false"
  | .num lit _ => lit
  | .str s => "\"" ++ s ++ "\""
  | .obj fields => "\x7b" ++ serializeFields fields ++ "\x7d"
  | .arr elems => "[" ++ serializeElems elems ++ "]"

/-- The comma-separated field list of serialize_value's object case. -/
def serializeFields : List (String × Json) → String
  | [] => ""
  | [(k, v)] => "\"" ++ k ++ "\":" ++ serialize_value v
  | (k, v) :: rest => "\"" ++ k ++ "\":" ++ serialize_value v ++ "," ++ serializeFields rest

/-- The comma-separated element list of serialize_value's array case. -/
def serializeElems : List Json → String
  | [] => ""
  | [e] => serialize_value e
  | e :: rest => serialize_value e ++ "," ++ serializeElems rest
end

/-- The store m[k] = v of std::unordered_map: overwrite the binding of k
if present, otherwise add one.  The list order is a canonical
representation (first-insertion order) of the unordered contents. -/
def mapInsert (m : List (String × String)) (k v : String) : List (String × String) :=
  if m.any (fun p => p.1 = k) then m.map (fun p => if p.1 = k then (k, v) else p)
  else m ++ [(k, v)]

/-- The value stored for one property field: a string node verbatim,
anything else its serialize_value text (lines 182-186 and 369-373). -/
def flattenVal (v : Json) : String :=
  match v with
  | .str s => s
  | v => serialize_value v

/-- parseProperties (lines 175-189): flatten a JSON object (or a null
pointer, modelled as none) into the string-to-string map. -/
def parseProperties (props : Option (List (String × Json))) : List (String × String) :=
  match props with
  | none => []
  | some fields => fields.foldl (fun m kv => mapInsert m kv.1 (flattenVal kv.2)) []

/-- parsePoint (lines 191-211): a coordinate array of length below 2 is a
fatal error; otherwise element 0 is x, element 1 is y, element 2 (when
present) is z, read with get_number.  CRS::ENU passes (x, y, z) through;
CRS::WGS builds WGS{y, x, z} and applies the external transform t. -/
def parsePoint (coords : List Json) (d : Datum) (c : CRS) (t : WGS → Datum → Point) :
    Except String Point :=
  match coords with
  | xe :: ye :: rest =>
    let x := get_number xe
    let y := get_number ye
    let z := match rest with
      | ze :: _ => get_number ze
      | [] => 0
    match c with
    | .ENU => .ok ⟨x, y, z⟩
    | .WGS => .ok (t ⟨y, x, z⟩ d)
  | _ => .error "Invalid point coordinates"

/-- The point-collecting loop of parseLineString and parsePolygon
(lines 218-223 and 241-246): entries that are arrays are parsed as points,
other entries are skipped; a point error aborts. -/
def collectPoints (coords : List Json) (d : Datum) (c : CRS) (t : WGS → Datum → Point) :
    Except String (List Point) :=
  match coords with
  | [] => .ok []
  | e :: rest =>
    match get_array e with
    | some pt => do
      let p ← parsePoint pt d c t
      let ps ← collectPoints rest d c t
      .ok (p :: ps)
    | none => collectPoints rest d c t

/-- parseLineString (lines 213-229): collect the points; exactly two make
a Line, any other count a Path. -/
def parseLineString (coords : List Json) (d : Datum) (c : CRS) (t : WGS → Datum → Point) :
    Except String Geometry := do
  let pts ← collectPoints coords d c t
  match pts with
  | [p1, p2] => .ok (Geometry.line ⟨p1, p2⟩)
  | _ => .ok (Geometry.path pts)

/-- parsePolygon (lines 231-249): an empty coordinates array or a
non-array first ring gives an empty polygon; otherwise only the first
ring's points are collected. -/
def parsePolygon (coords : List Json) (d : Datum) (c : CRS) (t : WGS → Datum → Point) :
    Except String Polygon :=
  match coords with
  | [] => .ok ⟨[]⟩
  | r :: _ =>
    match get_array r with
    | none => .ok ⟨[]⟩
    | some ring => (collectPoints ring d c t).map Polygon.mk

/-- The MultiPoint loop (lines 277-283): one Point per array entry,
non-array entries skipped. -/
def multiPoints (coords : List Json) (d : Datum) (c : CRS) (t : WGS → Datum → Point) :
    Except String (List Geometry) :=
  match coords with
  | [] => .ok []
  | e :: rest =>
    match get_array e with
    | some pt => do
      let p ← parsePoint pt d c t
      let gs ← multiPoints rest d c t
      .ok (Geometry.point p :: gs)
    | none => multiPoints rest d c t

/-- The MultiLineString loop (lines 286-292): one Line-or-Path per
array entry, non-array entries skipped. -/
def multiLines (coords : List Json) (d : Datum) (c : CRS) (t : WGS → Datum → Point) :
    Except String (List Geometry) :=
  match coords with
  | [] => .ok []
  | e :: rest =>
    match get_array e with
    | some la => do
      let g ← parseLineString la d c t
      let gs ← multiLines rest d c t
      .ok (g :: gs)
    | none => multiLines rest d c t

/-- The MultiPolygon loop (lines 295-301): one Polygon per array entry,
non-array entries skipped. -/
def multiPolys (coords : List Json) (d : Datum) (c : CRS) (t : WGS → Datum → Point) :
    Except String (List Geometry) :=
  match coords with
  | [] => .ok []
  | e :: rest =>
    match get_array e with
    | some pa => do
      let pg ← parsePolygon pa d c t
      let gs ← multiPolys rest d c t
      .ok (Geometry.polygon pg :: gs)
    | none => multiPolys rest d c t

theorem find_element_sizeOf {fields : List (String × Json)} {key : String} {v : Json}
    (h : find_element fields key = some v) : sizeOf v < sizeOf fields := by
  induction fields with
  | nil => simp [find_element] at h
  | cons kv rest ih =>
    obtain ⟨k, w⟩ := kv
    rw [find_element] at h
    by_cases hk : k = key
    · simp [hk] at h
      subst h
      simp
      omega
    · simp [hk] at h
      have := ih h
      simp
      omega

theorem get_array_sizeOf {j : Json} {l : List Json} (h : get_array j = some l) :
    sizeOf l < sizeOf j := by
  cases j <;> simp [get_array] at h
  subst h
  simp

theorem get_object_sizeOf {j : Json} {l : List (String × Json)} (h : get_object j = some l) :
    sizeOf l < sizeOf j := by
  cases j <;> simp [get_object] at h
  subst h
  simp

mutual
/-- parseGeometry (lines 251-317): dispatch on the geometry node's type
string.  A missing type, an unrecognized type, or missing coordinates
yield zero geometries; GeometryCollection recurses into its geometries
array, concatenating the results. -/
def parseGeometry (geom : List (String × Json)) (d : Datum) (c : CRS)
    (t : WGS → Datum → Point) : Except String (List Geometry) :=
  match find_element geom "type" with
  | none => .ok []
  | some tv =>
    let ty := get_string tv
    let coords : Option (List Json) :=
      match find_element geom "coordinates" with
      | some cv => get_array cv
      | none => none
    if ty = "Point" then
      match coords with
      | some cs => (parsePoint cs d c t).map (fun p => [Geometry.point p])
      | none => .ok []
    else if ty = "LineString" then
      match coords with
      | some cs => (parseLineString cs d c t).map (fun g => [g])
      | none => .ok []
    else if ty = "Polygon" then
      match coords with
      | some cs => (parsePolygon cs d c t).map (fun pg => [Geometry.polygon pg])
      | none => .ok []
    else if ty = "MultiPoint" then
      match coords with
      | some cs => multiPoints cs d c t
      | none => .ok []
    else if ty = "MultiLineString" then
      match coords with
      | some cs => multiLines cs d c t
      | none => .ok []
    else if ty = "MultiPolygon" then
      match coords with
      | some cs => multiPolys cs d c t
      | none => .ok []
    else if ty = "GeometryCollection" then
      match hg : find_element geom "geometries" with
      | none => .ok []
      | some gv =>
        match ha : get_array gv with
        | none => .ok []
        | some elems => parseGeometryElems elems d c t
    else .ok []
termination_by sizeOf geom
decreasing_by
  have h1 := find_element_sizeOf hg
  have h2 := get_array_sizeOf ha
  omega

/-- The GeometryCollection loop (lines 307-313): recurse into every
entry that is an object, concatenating the sub-results in order. -/
def parseGeometryElems (elems : List Json) (d : Datum) (c : CRS)
    (t : WGS → Datum → Point) : Except String (List Geometry) :=
  match elems with
  | [] => .ok []
  | e :: rest =>
    match ho : get_object e with
    | some so => do
      let subs ← parseGeometry so d c t
      let more ← parseGeometryElems rest d c t
      .ok (subs ++ more)
    | none => parseGeometryElems rest d c t
termination_by sizeOf elems
decreasing_by
  all_goals (try have h1 := get_object_sizeOf ho)
  all_goals (try simp)
  all_goals omega
end

/-- parseCRS (lines 319-325): the three Geodetic spellings, the two
LocalPlanar spellings, and a fatal error for everything else. -/
def parseCRS (s : String) : Except String CRS :=
  if s = "EPSG:4326" ∨ s = "WGS84" ∨ s = "WGS" then .ok CRS.WGS
  else if s = "ENU" ∨ s = "ECEF" then .ok CRS.ENU
  else .error ("Unknown CRS string: " ++ s)

/-- op::ReadFeatureCollection (lines 124-172) minus the file read and the
raw JSON parse: normalize the top-level shape.  The C++ materializes the
wrapper by serializing the root and re-parsing the text; the wrapper is
built structurally here, which produces the same tree whenever the text
round trip is faithful, and in every case a wrapper whose only top-level
fields are "type" and "features". -/
def opReadFeatureCollection (root : Json) : Except String Json :=
  match get_object root with
  | none => .error "geoson::ReadFeatureCollection(): top-level object has no string \x27type\x27 field"
  | some fields =>
    match find_element fields "type" with
    | some (.str ty) =>
      if ty = "FeatureCollection" then .ok root
      else if ty = "Feature" then
        .ok (.obj [("type", .str "FeatureCollection"), ("features", .arr [root])])
      else
        .ok (.obj [("type", .str "FeatureCollection"),
          ("features", .arr [.obj [("type", .str "Feature"), ("geometry", root),
            ("properties", .obj [])]])])
    | _ => .error "geoson::ReadFeatureCollection(): top-level object has no string \x27type\x27 field"

/-- The type-tag test geom_elem value type equals json_type_null. -/
def isNull : Json → Bool
  | .null => true
  | _ => false

/-- The body of the features loop (lines 381-400) for one entry of the
features array: skip non-objects, skip a missing or null geometry,
otherwise parse the geometry and the feature properties and emit one
Feature per geometry variant, all sharing the flattened property map. -/
def featureItems (fe : Json) (d : Datum) (c : CRS) (t : WGS → Datum → Point) :
    Except String (List Feature) :=
  match get_object fe with
  | none => .ok []
  | some fo =>
    match find_element fo "geometry" with
    | none => .ok []
    | some g =>
      if isNull g then .ok []
      else do
        let geoms ←
          match get_object g with
          | some go => parseGeometry go d c t
          | none => .ok []
        let props :=
          match find_element fo "properties" with
          | some (.obj pf) => parseProperties (some pf)
          | _ => []
        .ok (geoms.map (fun gg => { geometry := gg, properties := props }))

/-- The features loop (lines 380-401): process the entries in order,
appending each entry's Features; the first error aborts the parse. -/
def buildFeatures (feats : List Json) (d : Datum) (c : CRS) (t : WGS → Datum → Point) :
    Except String (List Feature) :=
  match feats with
  | [] => .ok []
  | fe :: rest => do
    let items ← featureItems fe d c t
    let more ← buildFeatures rest d c t
    .ok (items ++ more)

/-- The per-feature decomposition of the features loop, following the
spec's words: one block of Features per input feature entry, kept
separate; the loop's output is the concatenation of the blocks. -/
def featureBlocks (feats : List Json) (d : Datum) (c : CRS) (t : WGS → Datum → Point) :
    Except String (List (List Feature)) :=
  match feats with
  | [] => .ok []
  | fe :: rest => do
    let items ← featureItems fe d c t
    let more ← featureBlocks rest d c t
    .ok (items :: more)

/-- The CRS, datum and heading checks of ReadFeatureCollection
(lines 337-359), in source order: crs present and a string, datum
present, an array of length at least 3, heading present and a number,
then parseCRS, then the Datum from the first three entries and the yaw. -/
def resolveContext (P : List (String × Json)) : Except String (CRS × Datum × Rat) :=
  match find_element P "crs" with
  | some (.str s) =>
    (match find_element P "datum" with
     | some dv =>
       (match get_array dv with
        | some darr =>
          (match darr with
           | d0 :: d1 :: d2 :: _ =>
             (match find_element P "heading" with
              | some (.num _ yaw) => do
                let c ← parseCRS s
                .ok (c, ⟨get_number d0, get_number d1, get_number d2⟩, yaw)
              | _ => .error "\x27properties\x27 missing numeric \x27heading\x27")
           | _ => .error "\x27properties\x27 missing array \x27datum\x27 of ≥3 numbers")
        | none => .error "\x27properties\x27 missing array \x27datum\x27 of ≥3 numbers")
     | none => .error "\x27properties\x27 missing array \x27datum\x27 of ≥3 numbers")
  | _ => .error "\x27properties\x27 missing string \x27crs\x27"

/-- The global-properties loop (lines 366-375): every key of the
top-level properties object except crs, datum and heading, flattened. -/
def globalProps (P : List (String × Json)) : List (String × String) :=
  P.foldl
    (fun m kv =>
      if kv.1 = "crs" ∨ kv.1 = "datum" ∨ kv.1 = "heading" then m
      else mapInsert m kv.1 (flattenVal kv.2))
    []

/-- The features array of the document (lines 378-379): absent or
non-array gives the empty list (the loop is skipped). -/
def featuresArray (fcObj : List (String × Json)) : List Json :=
  match find_element fcObj "features" with
  | some v => (get_array v).getD []
  | none => []

/-- ReadFeatureCollection (lines 327-405) minus the file read: normalize
the top-level shape, require the top-level properties object, resolve
CRS, datum and heading, flatten global properties, then run the features
loop. -/
def ReadFeatureCollection (root : Json) (t : WGS → Datum → Point) :
    Except String FeatureCollection :=
  match opReadFeatureCollection root with
  | .error e => .error e
  | .ok fcJson =>
    match find_element ((get_object fcJson).getD []) "properties" with
    | some (.obj P) =>
      (match resolveContext P with
       | .error e => .error e
       | .ok (c, d, yaw) =>
         (match buildFeatures (featuresArray ((get_object fcJson).getD [])) d c t with
          | .error e => .error e
          | .ok fs =>
            .ok { datum := d, heading := ⟨0, 0, yaw⟩,
                  global_properties := globalProps P, features := fs }))
    | _ => .error "missing top-level \x27properties\x27"

/-- A concrete stand-in for the external geodetic transform, used only to
instantiate theorems at closed inputs. -/
def flatENU : WGS → Datum → Point := fun _ _ => ⟨0, 0, 0⟩

/-- Whether a JSON node is a number, used to state claims that speak of
numeric entries. -/
def isNum : Json → Bool
  | .num _ _ => true
  | _ => false

/-- A concrete valid FeatureCollection document: an ENU context, one
global property, a Point feature and a two-point MultiPoint feature. -/
def sampleDoc : Json := .obj [
  ("type", .str "FeatureCollection"),
  ("properties", .obj [
    ("crs", .str "ENU"),
    ("datum", .arr [.num "51.0" 51, .num "4.0" 4, .num "0.0" 0]),
    ("heading", .num "1.5" (3 / 2)),
    ("name", .str "field")]),
  ("features", .arr [
    .obj [("type", .str "Feature"),
          ("geometry", .obj [("type", .str "Point"),
            ("coordinates", .arr [.num "1" 1, .num "2" 2])]),
          ("properties", .obj [("k", .str "v")])],
    .obj [("type", .str "Feature"),
          ("geometry", .obj [("type", .str "MultiPoint"),
            ("coordinates", .arr [.arr [.num "3" 3, .num "4" 4],
              .arr [.num "5" 5, .num "6" 6]])]),
          ("properties", .obj [])]])]

/-- The model that parsing sampleDoc under flatENU produces. -/
def sampleFC : FeatureCollection :=
  { datum := ⟨51, 4, 0⟩, heading := ⟨0, 0, 3 / 2⟩,
    global_properties := [("name", "field")],
    features := [
      ⟨.point ⟨1, 2, 0⟩, [("k", "v")]⟩,
      ⟨.point ⟨3, 4, 0⟩, []⟩,
      ⟨.point ⟨5, 6, 0⟩, []⟩] }

theorem except_bind_ok {α β : Type} (x : Except String α) (f : α → Except String β) (b : β) :
    (x >>= f) = .ok b ↔ ∃ a, x = .ok a ∧ f a = .ok b := by
  cases x <;> simp [Bind.bind, Except.bind]

/-- C3: for a coordinate array of length at least 2, the LocalPlanar tag
(CRS::ENU) makes the Coordinate Parser return (x, y, z) unchanged, with x
from element 0, y from element 1, and z from element 2 when present and
0.0 otherwise; in particular [10.0, 20.0, 5.0] gives Point(10.0, 20.0, 5.0). -/
theorem parsePoint_localPlanar_passthrough (d : Datum) (t : WGS → Datum → Point)
    (sx sy sz : String) (x y z : Rat) (rest : List Json) :
    parsePoint [.num sx x, .num sy y] d .ENU t = .ok ⟨x, y, 0⟩ ∧
    parsePoint (.num sx x :: .num sy y :: .num sz z :: rest) d .ENU t = .ok ⟨x, y, z⟩ ∧
    parsePoint [.num "10.0" 10, .num "20.0" 20, .num "5.0" 5] d .ENU t = .ok ⟨10, 20, 5⟩ :=
  ⟨rfl, rfl, rfl⟩

/-- C4 counterexample: the array [str "a", str "b"] has fewer than 2
numeric entries, yet parsePoint succeeds (get_number reads non-numbers
as 0.0 and only the raw array length is checked), contradicting the
claim that the parser fails exactly when there are fewer than 2 numeric
entries. -/
theorem parsePoint_nonNumeric_pair_ok :
    ((([Json.str "a", Json.str "b"]).countP isNum) < 2) ∧
    parsePoint [.str "a", .str "b"] ⟨0, 0, 0⟩ .ENU flatENU = .ok ⟨0, 0, 0⟩ :=
  ⟨by decide, rfl⟩

/-- C4 amended: parsePoint fails with the fatal "Invalid point
coordinates" error exactly when the coordinate array has fewer than 2
entries of any kind; with 2 or more entries it returns a point without
error (non-numeric entries are read as 0.0). -/
theorem parsePoint_error_iff_short (coords : List Json) (d : Datum) (c : CRS)
    (t : WGS → Datum → Point) :
    (coords.length < 2 → parsePoint coords d c t = .error "Invalid point coordinates") ∧
    (2 ≤ coords.length → ∃ p, parsePoint coords d c t = .ok p) := by
  match coords with
  | [] => exact ⟨fun _ => rfl, by simp⟩
  | [a] => exact ⟨fun _ => rfl, by simp⟩
  | a :: b :: rest =>
    refine ⟨fun h => by simp at h; omega, fun _ => ?_⟩
    cases c
    · exact ⟨_, rfl⟩
    · exact ⟨_, rfl⟩

/-- C4 witness: the empty array fails, a 2-entry numeric array succeeds. -/
theorem parsePoint_error_iff_short_witness :
    parsePoint [] ⟨0, 0, 0⟩ .ENU flatENU = .error "Invalid point coordinates" ∧
    ∃ p, parsePoint [.num "1" 1, .num "2" 2] ⟨0, 0, 0⟩ .ENU flatENU = .ok p :=
  ⟨(parsePoint_error_iff_short [] ⟨0, 0, 0⟩ .ENU flatENU).1 (by decide),
   (parsePoint_error_iff_short [.num "1" 1, .num "2" 2] ⟨0, 0, 0⟩ .ENU flatENU).2 (by decide)⟩

/-- C5: a LineString's coordinates yield a Line exactly when the
collected point sequence has length 2; any other count yields a Path of
exactly those points, and a Path result never has length 2. -/
theorem parseLineString_line_iff (coords : List Json) (d : Datum) (c : CRS)
    (t : WGS → Datum → Point) (pts : List Point)
    (h : collectPoints coords d c t = .ok pts) :
    (∀ l, parseLineString coords d c t = .ok (.line l) → pts.length = 2 ∧ pts = [l.p1, l.p2]) ∧
    (pts.length = 2 → ∃ l, parseLineString coords d c t = .ok (.line l) ∧ pts = [l.p1, l.p2]) ∧
    (pts.length ≠ 2 → parseLineString coords d c t = .ok (.path pts)) ∧
    (∀ ps, parseLineString coords d c t = .ok (.path ps) → ps = pts ∧ ps.length ≠ 2) := by
  match pts with
  | [] => simp [parseLineString, h, Bind.bind, Except.bind]
  | [p1] => simp [parseLineString, h, Bind.bind, Except.bind]
  | [p1, p2] => simp [parseLineString, h, Bind.bind, Except.bind]
  | p1 :: p2 :: p3 :: rest =>
    simp [parseLineString, h, Bind.bind, Except.bind]
    try omega

/-- C5 witness: a two-entry LineString gives a Line, a three-entry one a
Path. -/
theorem parseLineString_line_iff_witness :
    (∃ l, parseLineString [.arr [.num "0" 0, .num "1" 1], .arr [.num "2" 2, .num "3" 3]]
      ⟨0, 0, 0⟩ .ENU flatENU = .ok (.line l) ∧
      ([(⟨0, 1, 0⟩ : Point), ⟨2, 3, 0⟩] : List Point) = [l.p1, l.p2]) ∧
    parseLineString [.arr [.num "0" 0, .num "1" 1], .arr [.num "2" 2, .num "3" 3],
      .arr [.num "4" 4, .num "5" 5]] ⟨0, 0, 0⟩ .ENU flatENU
      = .ok (.path [⟨0, 1, 0⟩, ⟨2, 3, 0⟩, ⟨4, 5, 0⟩]) :=
  ⟨(parseLineString_line_iff [.arr [.num "0" 0, .num "1" 1], .arr [.num "2" 2, .num "3" 3]]
      ⟨0, 0, 0⟩ .ENU flatENU [⟨0, 1, 0⟩, ⟨2, 3, 0⟩] rfl).2.1 (by decide),
   (parseLineString_line_iff [.arr [.num "0" 0, .num "1" 1], .arr [.num "2" 2, .num "3" 3],
      .arr [.num "4" 4, .num "5" 5]] ⟨0, 0, 0⟩ .ENU flatENU
      [⟨0, 1, 0⟩, ⟨2, 3, 0⟩, ⟨4, 5, 0⟩] rfl).2.2.1 (by decide)⟩

/-- C6: a Polygon is built from the first ring only: prepending any
further rings leaves the result identical to parsing the first ring
alone, and the output points are exactly those collected from ring
index 0. -/
theorem parsePolygon_first_ring_only (r : Json) (rest : List Json) (d : Datum) (c : CRS)
    (t : WGS → Datum → Point) :
    parsePolygon (r :: rest) d c t = parsePolygon [r] d c t ∧
    parsePolygon (r :: rest) d c t =
      (match get_array r with
       | none => .ok ⟨[]⟩
       | some ring => (collectPoints ring d c t).map Polygon.mk) :=
  ⟨rfl, rfl⟩

/-- C7: parseCRS maps exactly "EPSG:4326", "WGS84" and "WGS" to the
Geodetic tag CRS::WGS, exactly "ENU" and "ECEF" to the LocalPlanar tag
CRS::ENU, and any other string to a fatal error. -/
theorem parseCRS_classification (s : String) :
    (parseCRS s = .ok CRS.WGS ↔ s = "EPSG:4326" ∨ s = "WGS84" ∨ s = "WGS") ∧
    (parseCRS s = .ok CRS.ENU ↔ s = "ENU" ∨ s = "ECEF") ∧
    (¬(s = "EPSG:4326" ∨ s = "WGS84" ∨ s = "WGS" ∨ s = "ENU" ∨ s = "ECEF") →
      parseCRS s = .error ("Unknown CRS string: " ++ s)) := by
  rcases eq_or_ne s "EPSG:4326" with h1 | h1
  · subst h1; simp [parseCRS]
  rcases eq_or_ne s "WGS84" with h2 | h2
  · subst h2; simp [parseCRS]
  rcases eq_or_ne s "WGS" with h3 | h3
  · subst h3; simp [parseCRS]
  rcases eq_or_ne s "ENU" with h4 | h4
  · subst h4; simp [parseCRS]
  rcases eq_or_ne s "ECEF" with h5 | h5
  · subst h5; simp [parseCRS]
  simp [parseCRS, h1, h2, h3, h4, h5]

/-- C7 witness: one string of each class. -/
theorem parseCRS_classification_witness :
    parseCRS "WGS84" = .ok CRS.WGS ∧
    parseCRS "ECEF" = .ok CRS.ENU ∧
    parseCRS "UTM32N" = .error "Unknown CRS string: UTM32N" :=
  ⟨(parseCRS_classification "WGS84").1.2 (Or.inr (Or.inl rfl)),
   (parseCRS_classification "ECEF").2.1.2 (Or.inr rfl),
   (parseCRS_classification "UTM32N").2.2 (by decide)⟩

/-- C10: the point loop skips coordinate entries that are not arrays, so
the Line-versus-Path decision counts only the parsed points: a
LineString with three entries of which exactly two are arrays yields a
Line, whatever the datum, CRS and transform. -/
theorem collectPoints_skips_nonArrays :
    (∀ e rest d c t, get_array e = none →
      collectPoints (e :: rest) d c t = collectPoints rest d c t) ∧
    (∀ d c t, ∃ l, parseLineString
        [.arr [.num "0" 0, .num "1" 1], .str "junk", .arr [.num "2" 2, .num "3" 3]] d c t
        = .ok (.line l)) := by
  constructor
  · intro e rest d c t he
    rw [collectPoints, he]
  · intro d c t
    cases c
    · exact ⟨⟨t ⟨1, 0, 0⟩ d, t ⟨3, 2, 0⟩ d⟩, rfl⟩
    · exact ⟨⟨⟨0, 1, 0⟩, ⟨2, 3, 0⟩⟩, rfl⟩

/-- C10 witness: a non-array entry is skipped, and the mixed three-entry
LineString parses to a Line at a concrete context. -/
theorem collectPoints_skips_nonArrays_witness :
    collectPoints [.str "x", .arr [.num "1" 1, .num "2" 2]] ⟨0, 0, 0⟩ .ENU flatENU
      = collectPoints [.arr [.num "1" 1, .num "2" 2]] ⟨0, 0, 0⟩ .ENU flatENU ∧
    ∃ l, parseLineString
        [.arr [.num "0" 0, .num "1" 1], .str "junk", .arr [.num "2" 2, .num "3" 3]]
        ⟨0, 0, 0⟩ .ENU flatENU = .ok (.line l) :=
  ⟨collectPoints_skips_nonArrays.1 (.str "x") [.arr [.num "1" 1, .num "2" 2]]
      ⟨0, 0, 0⟩ .ENU flatENU rfl,
   collectPoints_skips_nonArrays.2 ⟨0, 0, 0⟩ .ENU flatENU⟩

/-- C2: the code never parses a non-FeatureCollection top level
successfully.  A bare Point geometry, a bare Feature even when it
carries the required crs, datum and heading fields, and an unrecognized
geometry-style type all fail with the missing-top-level-properties
error, because the synthesized wrapper contains only the fields "type"
and "features".  This contradicts the spec, which says such documents
succeed when the required properties fields are present. -/
theorem readFC_nonFC_topLevel_fails :
    (∀ t, ReadFeatureCollection (.obj [("type", .str "Point"),
        ("coordinates", .arr [.num "1" 1, .num "2" 2])]) t
      = .error "missing top-level \x27properties\x27") ∧
    (∀ t, ReadFeatureCollection (.obj [("type", .str "Feature"),
        ("geometry", .obj [("type", .str "Point"),
          ("coordinates", .arr [.num "1" 1, .num "2" 2])]),
        ("properties", .obj [("crs", .str "ENU"),
          ("datum", .arr [.num "0" 0, .num "0" 0, .num "0" 0]),
          ("heading", .num "0" 0)])]) t
      = .error "missing top-level \x27properties\x27") ∧
    (∀ t, ReadFeatureCollection (.obj [("type", .str "Sphere"),
        ("coordinates", .arr [])]) t
      = .error "missing top-level \x27properties\x27") :=
  ⟨fun _ => rfl, fun _ => rfl, fun _ => rfl⟩

theorem foldl_mapInsert_fresh (fields : List (String × Json)) (acc : List (String × String))
    (hn : (fields.map Prod.fst).Nodup)
    (hf : ∀ kv ∈ fields, ∀ p ∈ acc, p.1 ≠ kv.1) :
    fields.foldl (fun m kv => mapInsert m kv.1 (flattenVal kv.2)) acc
      = acc ++ fields.map (fun kv => (kv.1, flattenVal kv.2)) := by
  induction fields generalizing acc with
  | nil => simp
  | cons kv rest ih =>
    simp only [List.foldl_cons]
    have hany : ¬ (acc.any (fun p => p.1 = kv.1) = true) := by
      simp only [List.any_eq_true, decide_eq_true_eq, not_exists]
      intro p
      rw [not_and]
      intro hp
      exact hf kv (List.mem_cons_self kv rest) p hp
    have hins : mapInsert acc kv.1 (flattenVal kv.2) = acc ++ [(kv.1, flattenVal kv.2)] := by
      rw [mapInsert, if_neg hany]
    rw [hins, ih]
    · simp
    · exact (List.nodup_cons.mp (by simpa using hn)).2
    · intro kv' hkv' p hp
      rcases List.mem_append.mp hp with hpacc | hpnew
      · exact hf kv' (List.mem_cons_of_mem _ hkv') p hpacc
      · have hp1 : p.1 = kv.1 := by
          simp only [List.mem_singleton] at hpnew
          rw [hpnew]
        rw [hp1]
        have hnotin : kv.1 ∉ rest.map Prod.fst := (List.nodup_cons.mp (by simpa using hn)).1
        intro heq
        exact hnotin (heq ▸ List.mem_map_of_mem Prod.fst hkv')

/-- C8: the Property Flattener turns an absent object into the empty
mapping; an object with distinct keys into one entry per field in
encountered order, string values verbatim and every other value as its
compact serialize_value text; and the object with fields a = "x", b = 3,
c = true into the mapping a to "x", b to "3", c to "true". -/
theorem parseProperties_flattens :
    parseProperties none = [] ∧
    (∀ fields, (fields.map Prod.fst).Nodup →
      parseProperties (some fields) = fields.map (fun kv => (kv.1, flattenVal kv.2))) ∧
    (∀ s, flattenVal (.str s) = s) ∧
    (∀ v, (∀ s, v ≠ .str s) → flattenVal v = serialize_value v) ∧
    parseProperties (some [("a", .str "x"), ("b", .num "3" 3), ("c", .boolean true)])
      = [("a", "x"), ("b", "3"), ("c", "true")] := by
  refine ⟨rfl, ?_, fun s => rfl, ?_, rfl⟩
  · intro fields hn
    rw [parseProperties, foldl_mapInsert_fresh fields [] hn (by simp)]
    simp
  · intro v h
    cases v with
    | str s => exact absurd rfl (h s)
    | null => rfl
    | boolean b => rfl
    | num lit val => rfl
    | arr elems => rfl
    | obj fs => rfl

/-- C8 witness: the general field rule applied to a concrete two-field
object and to a non-string value. -/
theorem parseProperties_flattens_witness :
    parseProperties (some [("k", .str "v"), ("n", .num "7" 7)])
      = [("k", flattenVal (.str "v")), ("n", flattenVal (.num "7" 7))] ∧
    flattenVal (.boolean false) = serialize_value (.boolean false) :=
  ⟨parseProperties_flattens.2.1 [("k", .str "v"), ("n", .num "7" 7)] (by decide),
   parseProperties_flattens.2.2.2.1 (.boolean false) (by intro s h; cases h)⟩

/-- C9: a feature with a missing or null geometry, a geometry node with
a missing or unrecognized type, and a coordinate-bearing geometry node
without coordinates each contribute zero geometries, return success
rather than an error, and leave the surrounding features loop
untouched. -/
theorem silent_skips :
    (∀ fo d c t, find_element fo "geometry" = none →
      featureItems (.obj fo) d c t = .ok []) ∧
    (∀ fo d c t, find_element fo "geometry" = some .null →
      featureItems (.obj fo) d c t = .ok []) ∧
    (∀ geom d c t, find_element geom "type" = none →
      parseGeometry geom d c t = .ok []) ∧
    (∀ geom d c t tv, find_element geom "type" = some tv →
      get_string tv ∉ (["Point", "LineString", "Polygon", "MultiPoint",
        "MultiLineString", "MultiPolygon", "GeometryCollection"] : List String) →
      parseGeometry geom d c t = .ok []) ∧
    (∀ geom d c t tv, find_element geom "type" = some tv →
      get_string tv ∈ (["Point", "LineString", "Polygon", "MultiPoint",
        "MultiLineString", "MultiPolygon"] : List String) →
      find_element geom "coordinates" = none →
      parseGeometry geom d c t = .ok []) ∧
    (∀ fe rest d c t, featureItems fe d c t = .ok [] →
      buildFeatures (fe :: rest) d c t = buildFeatures rest d c t) := by
  refine ⟨?_, ?_, ?_, ?_, ?_, ?_⟩
  · intro fo d c t h
    simp [featureItems, get_object, h]
  · intro fo d c t h
    simp [featureItems, get_object, h, isNull]
  · intro geom d c t h
    simp [parseGeometry, h]
  · intro geom d c t tv h hmem
    simp only [List.mem_cons, List.mem_singleton, not_or] at hmem
    obtain ⟨h1, h2, h3, h4, h5, h6, h7⟩ := hmem
    simp [parseGeometry, h, h1, h2, h3, h4, h5, h6, h7]
  · intro geom d c t tv h hmem hco
    simp only [List.mem_cons, List.mem_singleton] at hmem
    rcases hmem with hty | hty | hty | hty | hty | hty | hmem
    · simp [parseGeometry, h, hty, hco]
    · simp [parseGeometry, h, hty, hco]
    · simp [parseGeometry, h, hty, hco]
    · simp [parseGeometry, h, hty, hco]
    · simp [parseGeometry, h, hty, hco]
    · simp [parseGeometry, h, hty, hco]
    · simp at hmem
  · intro fe rest d c t h
    simp only [buildFeatures, h, Bind.bind, Except.bind]
    cases buildFeatures rest d c t <;> rfl

/-- C9 witness: one concrete instance of each skip, and the loop
continuing past it. -/
theorem silent_skips_witness :
    featureItems (.obj [("other", .null)]) ⟨0, 0, 0⟩ .ENU flatENU = .ok [] ∧
    featureItems (.obj [("geometry", .null)]) ⟨0, 0, 0⟩ .ENU flatENU = .ok [] ∧
    parseGeometry [("foo", .null)] ⟨0, 0, 0⟩ .ENU flatENU = .ok [] ∧
    parseGeometry [("type", .str "Weird")] ⟨0, 0, 0⟩ .ENU flatENU = .ok [] ∧
    parseGeometry [("type", .str "Point")] ⟨0, 0, 0⟩ .ENU flatENU = .ok [] ∧
    buildFeatures [.str "nope"] ⟨0, 0, 0⟩ .ENU flatENU = buildFeatures [] ⟨0, 0, 0⟩ .ENU flatENU :=
  ⟨silent_skips.1 [("other", .null)] ⟨0, 0, 0⟩ .ENU flatENU rfl,
   silent_skips.2.1 [("geometry", .null)] ⟨0, 0, 0⟩ .ENU flatENU rfl,
   silent_skips.2.2.1 [("foo", .null)] ⟨0, 0, 0⟩ .ENU flatENU rfl,
   silent_skips.2.2.2.1 [("type", .str "Weird")] ⟨0, 0, 0⟩ .ENU flatENU (.str "Weird") rfl
     (by decide),
   silent_skips.2.2.2.2.1 [("type", .str "Point")] ⟨0, 0, 0⟩ .ENU flatENU (.str "Point") rfl
     (by decide) rfl,
   silent_skips.2.2.2.2.2 (.str "nope") [] ⟨0, 0, 0⟩ .ENU flatENU rfl⟩

theorem buildFeatures_flatten (feats : List Json) (d : Datum) (c : CRS)
    (t : WGS → Datum → Point) :
    buildFeatures feats d c t = (featureBlocks feats d c t).map List.flatten := by
  induction feats with
  | nil => rfl
  | cons fe rest ih =>
    rw [buildFeatures, featureBlocks]
    cases hfe : featureItems fe d c t with
    | error e => simp [Bind.bind, Except.bind, Except.map]
    | ok items =>
      simp only [Bind.bind, Except.bind]
      rw [ih]
      cases hb : featureBlocks rest d c t with
      | error e => simp [Except.map]
      | ok gss => simp [Except.map]

theorem featureBlocks_items (feats : List Json) (d : Datum) (c : CRS)
    (t : WGS → Datum → Point) (gss : List (List Feature))
    (h : featureBlocks feats d c t = .ok gss) :
    ∀ items ∈ gss, ∃ fe, featureItems fe d c t = .ok items := by
  induction feats generalizing gss with
  | nil =>
    rw [featureBlocks] at h
    simp at h
    subst h
    simp
  | cons fe rest ih =>
    rw [featureBlocks] at h
    cases hfe : featureItems fe d c t with
    | error e => rw [hfe] at h; simp [Bind.bind, Except.bind] at h
    | ok items =>
      rw [hfe] at h
      simp only [Bind.bind, Except.bind] at h
      cases hb : featureBlocks rest d c t with
      | error e => rw [hb] at h; simp at h
      | ok gss' =>
        rw [hb] at h
        simp at h
        subst h
        intro its hits
        rcases List.mem_cons.mp hits with rfl | hmem
        · exact ⟨fe, hfe⟩
        · exact ih gss' hb its hmem

theorem featureItems_shape (fe : Json) (d : Datum) (c : CRS) (t : WGS → Datum → Point)
    (items : List Feature) (h : featureItems fe d c t = .ok items) :
    ∃ (gs : List Geometry) (props : List (String × String)),
      items = gs.map (fun g => Feature.mk g props) := by
  rw [featureItems] at h
  cases hobj : get_object fe with
  | none =>
    simp only [hobj] at h
    simp at h
    subst h
    exact ⟨[], [], rfl⟩
  | some fo =>
    simp only [hobj] at h
    cases hg : find_element fo "geometry" with
    | none =>
      simp only [hg] at h
      simp at h
      subst h
      exact ⟨[], [], rfl⟩
    | some g =>
      simp only [hg] at h
      by_cases hnull : isNull g
      · rw [if_pos hnull] at h
        simp at h
        subst h
        exact ⟨[], [], rfl⟩
      · rw [if_neg hnull] at h
        cases hgo : get_object g with
        | some go =>
          simp only [hgo] at h
          obtain ⟨geoms, _, hmap⟩ := (except_bind_ok _ _ _).mp h
          simp only [Except.ok.injEq] at hmap
          exact ⟨geoms, _, hmap.symm⟩
        | none =>
          simp only [hgo] at h
          simp only [Bind.bind, Except.bind, Except.ok.injEq] at h
          exact ⟨[], _, h.symm⟩

/-- C1: whenever the parse succeeds, the output features are exactly the
concatenation, in document order, of the per-feature blocks produced by
the features array of the normalized document; hence their number is
the sum over the input features of the number of geometry variants each
produces, and within one block all Features share one property map. -/
theorem ReadFeatureCollection_feature_count (root : Json) (t : WGS → Datum → Point)
    (fc : FeatureCollection) (h : ReadFeatureCollection root t = .ok fc) :
    ∃ fcJson P c d yaw gss,
      opReadFeatureCollection root = .ok fcJson ∧
      find_element ((get_object fcJson).getD []) "properties" = some (.obj P) ∧
      resolveContext P = .ok (c, d, yaw) ∧
      featureBlocks (featuresArray ((get_object fcJson).getD [])) d c t = .ok gss ∧
      fc.features = gss.flatten ∧
      fc.features.length = (gss.map List.length).sum ∧
      (∀ items ∈ gss, ∃ props, ∀ f ∈ items, f.properties = props) := by
  rw [ReadFeatureCollection] at h
  cases hop : opReadFeatureCollection root with
  | error e => simp only [hop] at h; simp at h
  | ok fcJson =>
    simp only [hop] at h
    cases hpe : find_element ((get_object fcJson).getD []) "properties" with
    | none => simp only [hpe] at h; simp at h
    | some pv =>
      simp only [hpe] at h
      cases pv with
      | obj P =>
        cases hrc : resolveContext P with
        | error e => simp only [hrc] at h; simp at h
        | ok trip =>
          obtain ⟨c, d, yaw⟩ := trip
          simp only [hrc] at h
          cases hbf : buildFeatures (featuresArray ((get_object fcJson).getD [])) d c t with
          | error e => simp only [hbf] at h; simp at h
          | ok fs =>
            simp only [hbf] at h
            injection h with hfc
            subst hfc
            have hbe := buildFeatures_flatten (featuresArray ((get_object fcJson).getD [])) d c t
            rw [hbf] at hbe
            cases hblk : featureBlocks (featuresArray ((get_object fcJson).getD [])) d c t with
            | error e => rw [hblk] at hbe; simp [Except.map] at hbe
            | ok gss =>
              rw [hblk] at hbe
              simp only [Except.map, Except.ok.injEq] at hbe
              refine ⟨fcJson, P, c, d, yaw, gss, rfl, hpe, hrc, hblk, ?_, ?_, ?_⟩
              · exact hbe
              · show fs.length = (gss.map List.length).sum
                rw [hbe]
                exact List.length_flatten gss
              · intro items hmem
                obtain ⟨fe, hfe⟩ := featureBlocks_items _ d c t gss hblk items hmem
                obtain ⟨gs, props, hshape⟩ := featureItems_shape fe d c t items hfe
                refine ⟨props, ?_⟩
                intro f hf
                rw [hshape] at hf
                obtain ⟨g, _, rfl⟩ := List.mem_map.mp hf
                rfl
      | null => simp at h
      | boolean b => simp at h
      | num lit val => simp at h
      | str s => simp at h
      | arr elems => simp at h

/-- C1 witness: the sample document parses and its three Features are
the flattening of the two per-feature blocks of sizes 1 and 2. -/
theorem ReadFeatureCollection_feature_count_witness :
    ∃ fcJson P c d yaw gss,
      opReadFeatureCollection sampleDoc = .ok fcJson ∧
      find_element ((get_object fcJson).getD []) "properties" = some (.obj P) ∧
      resolveContext P = .ok (c, d, yaw) ∧
      featureBlocks (featuresArray ((get_object fcJson).getD [])) d c flatENU = .ok gss ∧
      sampleFC.features = gss.flatten ∧
      sampleFC.features.length = (gss.map List.length).sum ∧
      (∀ items ∈ gss, ∃ props, ∀ f ∈ items, f.properties = props) :=
  ReadFeatureCollection_feature_count sampleDoc flatENU sampleFC (by
    simp [sampleDoc, sampleFC, flatENU, ReadFeatureCollection, opReadFeatureCollection,
      find_element, get_object, get_array, resolveContext, parseCRS, globalProps,
      featuresArray, buildFeatures, featureItems, isNull, parseGeometry, multiPoints,
      parsePoint, get_number, get_string, parseProperties, mapInsert, flattenVal,
      Except.map, Bind.bind, Except.bind, Pure.pure, Except.pure])

end geoson
